import Mathlib

/-!
Shallow embedding of the multi-backend transcription core of `src/app.py`
(`transcribe_deepgram`, `transcribe_whisper`, `transcribe_assemblyai`,
`transcribe_all_in_parallel`, the credential gate and the save gate of
`main`, and the S3 object-key builder of `upload_audio_to_s3`).

Modelling conventions:
- Each external HTTP interaction is an explicit environment value handed to
  the adapter: either the request raises (transport failure) or it yields an
  HTTP status and a body.  A body is modelled by the content of the JSON
  field(s) the code reads from it: `none` stands for "the field path is
  missing (or the body is not parseable JSON)", both of which raise inside
  the adapter's `try` block and are caught by its `except`.
- `requests.Response.raise_for_status()` raises exactly when the HTTP status
  is at least 400; the embedding tests `400 ≤ status`.
- Python string falsiness (`if not KEY`) is modelled by equality with `""`.
- `str.strip()` is modelled by `pstrip` (drop whitespace from both ends).
- Each adapter returns an `AdapterRun`: the string the Python function
  returns, the `st.error` messages it emitted, how many non-poll HTTP
  requests and how many poll GETs it made, and which files it wrote/deleted.
- `transcribe_assemblyai` writes its temporary file OUTSIDE its `try`
  blocks; a failure of that write propagates out of the function, hence its
  return type is `Except String (Option AdapterRun)`.  The `Option` layer
  records whether the call returns at all: its poll loop consumes a finite
  list of poll responses and yields `none` when the list is exhausted
  without reaching a terminal response, i.e. the loop is still running
  after that many polls.
-/

namespace SpeechToText

/-- Model of Python `str.strip()`: remove leading and trailing whitespace. -/
def pstrip (s : String) : String :=
  ⟨((s.data.dropWhile Char.isWhitespace).reverse.dropWhile Char.isWhitespace).reverse⟩

/-- A string neither starts nor ends with a whitespace character. -/
def noEdgeWhitespace (s : String) : Prop :=
  (∀ c, s.data.head? = some c → c.isWhitespace = false) ∧
  (∀ c, s.data.getLast? = some c → c.isWhitespace = false)

theorem head?_dropWhile_false {p : Char → Bool} :
    ∀ (l : List Char) (c : Char), (l.dropWhile p).head? = some c → p c = false := by
  intro l
  induction l with
  | nil =>
    intro c h
    simp [List.dropWhile] at h
  | cons a t ih =>
    intro c h
    rw [List.dropWhile_cons] at h
    by_cases hp : p a
    · rw [if_pos hp] at h
      exact ih c h
    · rw [if_neg hp] at h
      simp only [List.head?_cons, Option.some.injEq] at h
      rw [← h]
      exact Bool.eq_false_iff.mpr hp

theorem getLast?_dropWhile_of_ne_nil {p : Char → Bool} :
    ∀ l : List Char, l.dropWhile p ≠ [] → (l.dropWhile p).getLast? = l.getLast? := by
  intro l
  induction l with
  | nil =>
    intro h
    simp [List.dropWhile] at h
  | cons a t ih =>
    intro h
    rw [List.dropWhile_cons] at h ⊢
    by_cases hp : p a
    · rw [if_pos hp] at h ⊢
      have ht : t ≠ [] := by
        intro e
        rw [e] at h
        simp [List.dropWhile] at h
      rw [ih h]
      cases t with
      | nil => exact absurd rfl ht
      | cons b t2 => exact (List.getLast?_cons_cons).symm
    · rw [if_neg hp]

theorem pstrip_noEdgeWhitespace (s : String) : noEdgeWhitespace (pstrip s) := by
  constructor
  · intro c h
    have hd : (pstrip s).data =
        ((s.data.dropWhile Char.isWhitespace).reverse.dropWhile Char.isWhitespace).reverse := rfl
    rw [hd, List.head?_reverse] at h
    have hne : (s.data.dropWhile Char.isWhitespace).reverse.dropWhile Char.isWhitespace ≠ [] := by
      intro e
      rw [e] at h
      simp at h
    rw [getLast?_dropWhile_of_ne_nil _ hne, List.getLast?_reverse] at h
    exact head?_dropWhile_false _ _ h
  · intro c h
    have hd : (pstrip s).data =
        ((s.data.dropWhile Char.isWhitespace).reverse.dropWhile Char.isWhitespace).reverse := rfl
    rw [hd, List.getLast?_reverse] at h
    exact head?_dropWhile_false _ _ h

/-- Outcome of one `requests.post`/`requests.get` call: the call either
raises (transport failure) or yields an HTTP status together with the JSON
field content the adapter reads from the body. -/
inductive ReqOutcome (β : Type) where
  | raise (msg : String)
  | resp (status : Nat) (body : β)
deriving DecidableEq, Repr

/-- Outcome of a client-library call with no HTTP status visible to the
caller (the `openai.Audio.transcribe` call): raise, or return a body. -/
inductive CallOutcome (β : Type) where
  | raise (msg : String)
  | ok (body : β)
deriving DecidableEq, Repr

/-- Observable behaviour of one adapter invocation: the string the Python
function returns, the `st.error` messages emitted, the number of non-poll
HTTP requests made, the number of poll GETs made, and the temp files
written and deleted. -/
structure AdapterRun where
  result : String
  uiErrors : List String
  requests : Nat
  polls : Nat
  filesWritten : List String
  filesDeleted : List String
deriving DecidableEq, Repr

/-- `temp_file = "temp_whisper.wav"` in `transcribe_whisper`. -/
def whisper_temp_file : String := "temp_whisper.wav"

/-- `temp_file = "temp_assembly.wav"` in `transcribe_assemblyai`. -/
def assembly_temp_file : String := "temp_assembly.wav"

/-- `object_key = f"audio_uploads/{unique_id}.wav"` in `upload_audio_to_s3`
(the only place a per-call unique id is generated). -/
def s3_object_key (unique_id : String) : String :=
  "audio_uploads/" ++ unique_id ++ ".wav"

/-- `transcribe_deepgram`: one POST; on success extract
`result["results"]["channels"][0]["alternatives"][0]["transcript"]` and
return it stripped; any exception (transport, `raise_for_status`, JSON
parse, missing field path) is caught, reported via `st.error`, and the
function returns `""`.  The environment's body is the transcript field
content (`none` = path missing / unparseable body). -/
def transcribe_deepgram (key : String) (env : ReqOutcome (Option String)) : AdapterRun :=
  if key = "" then
    { result := "Missing Deepgram API key.", uiErrors := [], requests := 0, polls := 0,
      filesWritten := [], filesDeleted := [] }
  else
    match env with
    | .raise msg =>
      { result := "", uiErrors := ["Deepgram transcription error: " ++ msg], requests := 1,
        polls := 0, filesWritten := [], filesDeleted := [] }
    | .resp status body =>
      if 400 ≤ status then
        { result := "", uiErrors := ["Deepgram transcription error: HTTPError"], requests := 1,
          polls := 0, filesWritten := [], filesDeleted := [] }
      else
        match body with
        | none =>
          { result := "", uiErrors := ["Deepgram transcription error: KeyError"], requests := 1,
            polls := 0, filesWritten := [], filesDeleted := [] }
        | some t =>
          { result := pstrip t, uiErrors := [], requests := 1, polls := 0,
            filesWritten := [], filesDeleted := [] }

/-- `transcribe_whisper`: write the audio to `temp_whisper.wav` (inside the
`try`), call `openai.Audio.transcribe`, and return
`response.get("text", "").strip()`; any exception is caught and the
function returns `""`.  The temp file is opened for writing and for
reading, and is never removed on any path.  The environment's body is the
`"text"` field content (`none` = field absent, which `get` turns into
`""`). -/
def transcribe_whisper (key : String) (env : CallOutcome (Option String)) : AdapterRun :=
  if key = "" then
    { result := "Missing OpenAI API key.", uiErrors := [], requests := 0, polls := 0,
      filesWritten := [], filesDeleted := [] }
  else
    match env with
    | .raise msg =>
      { result := "", uiErrors := ["Whisper transcription error: " ++ msg], requests := 1,
        polls := 0, filesWritten := [whisper_temp_file], filesDeleted := [] }
    | .ok body =>
      { result := pstrip (body.getD ""), uiErrors := [], requests := 1, polls := 0,
        filesWritten := [whisper_temp_file], filesDeleted := [] }

/-- One response of the AssemblyAI polling GET: the request raises
(transport failure), or yields an HTTP status and the `"status"`, `"text"`
and `"error"` fields of the JSON body (`none` = field absent). -/
inductive PollResp where
  | raise (msg : String)
  | resp (httpStatus : Nat) (status : Option String) (text : Option String) (err : Option String)
deriving DecidableEq, Repr

/-- Result of the poll loop once it returns: the string returned, the
`st.error` messages of the terminal iteration, and how many poll GETs were
made in total. -/
structure PollResult where
  result : String
  uiErrors : List String
  polls : Nat
deriving DecidableEq, Repr

/-- The `while True` poll loop of `transcribe_assemblyai`, one list entry
per iteration's GET.  An exception in an iteration (transport failure,
`raise_for_status` on a status ≥ 400, `status_data["status"]` or
`status_data["text"]` missing) is caught by the `except`, reported, and
ends the loop with return value `""`.  Status `"completed"` returns the
stripped `"text"` field; status `"error"` reports
`"AssemblyAI transcription error: " + status_data.get("error", "Unknown")`
and returns `""`; any other status sleeps one second and polls again.
`none` means the list was exhausted with the loop still running. -/
def assembly_poll_loop : List PollResp → Option PollResult
  | [] => none
  | r :: rest =>
    match r with
    | .raise msg =>
      some { result := "", uiErrors := ["AssemblyAI polling error: " ++ msg], polls := 1 }
    | .resp httpStatus status text err =>
      if 400 ≤ httpStatus then
        some { result := "", uiErrors := ["AssemblyAI polling error: HTTPError"], polls := 1 }
      else
        match status with
        | none =>
          some { result := "", uiErrors := ["AssemblyAI polling error: KeyError"], polls := 1 }
        | some s =>
          if s = "completed" then
            match text with
            | some t => some { result := pstrip t, uiErrors := [], polls := 1 }
            | none =>
              some { result := "", uiErrors := ["AssemblyAI polling error: KeyError"], polls := 1 }
          else if s = "error" then
            some { result := "",
                   uiErrors := ["AssemblyAI transcription error: " ++ err.getD "Unknown"],
                   polls := 1 }
          else
            (assembly_poll_loop rest).map fun pr =>
              { result := pr.result, uiErrors := pr.uiErrors, polls := pr.polls + 1 }

/-- A poll response on which the loop stops (anything except a 2xx/3xx
response carrying a status field other than `"completed"`/`"error"`). -/
def isTerminalPoll : PollResp → Bool
  | .raise _ => true
  | .resp httpStatus status _ _ =>
    400 ≤ httpStatus || status = none || status = some "completed" || status = some "error"

/-- Environment of one `transcribe_assemblyai` invocation: whether the
temp-file write raises, the upload POST (body = `"upload_url"` field), the
job-creation POST (body = `"id"` field), and the poll responses. -/
structure AssemblyEnv where
  writeError : Option String
  upload : ReqOutcome (Option String)
  submit : ReqOutcome (Option String)
  polls : List PollResp
deriving DecidableEq, Repr

/-- `transcribe_assemblyai`: write `temp_assembly.wav` (OUTSIDE any `try`,
so a write failure propagates to the caller — hence `Except`), upload the
bytes, check `"upload_url"` in the upload body, POST the job, read its
`"id"` (a `KeyError` here is caught by the `except` around the POST), then
poll.  `.ok none` means the poll loop was still running when its response
list ran out; the temp file is never removed on any path. -/
def transcribe_assemblyai (key : String) (env : AssemblyEnv) :
    Except String (Option AdapterRun) :=
  if key = "" then
    .ok (some { result := "Missing AssemblyAI API key.", uiErrors := [], requests := 0,
                polls := 0, filesWritten := [], filesDeleted := [] })
  else
    match env.writeError with
    | some e => .error e
    | none =>
      match env.upload with
      | .raise msg =>
        .ok (some { result := "", uiErrors := ["AssemblyAI upload failed: " ++ msg],
                    requests := 1, polls := 0, filesWritten := [assembly_temp_file],
                    filesDeleted := [] })
      | .resp uStatus uBody =>
        if 400 ≤ uStatus then
          .ok (some { result := "", uiErrors := ["AssemblyAI upload failed: HTTPError"],
                      requests := 1, polls := 0, filesWritten := [assembly_temp_file],
                      filesDeleted := [] })
        else
          match uBody with
          | none =>
            .ok (some { result := "AssemblyAI upload response invalid.", uiErrors := [],
                        requests := 1, polls := 0, filesWritten := [assembly_temp_file],
                        filesDeleted := [] })
          | some _audio_url =>
            match env.submit with
            | .raise msg =>
              .ok (some { result := "",
                          uiErrors := ["AssemblyAI transcription start error: " ++ msg],
                          requests := 2, polls := 0, filesWritten := [assembly_temp_file],
                          filesDeleted := [] })
            | .resp sStatus sBody =>
              if 400 ≤ sStatus then
                .ok (some { result := "",
                            uiErrors := ["AssemblyAI transcription start error: HTTPError"],
                            requests := 2, polls := 0, filesWritten := [assembly_temp_file],
                            filesDeleted := [] })
              else
                match sBody with
                | none =>
                  .ok (some { result := "",
                              uiErrors := ["AssemblyAI transcription start error: KeyError"],
                              requests := 2, polls := 0, filesWritten := [assembly_temp_file],
                              filesDeleted := [] })
                | some _transcript_id =>
                  match assembly_poll_loop env.polls with
                  | none => .ok none
                  | some pr =>
                    .ok (some { result := pr.result, uiErrors := pr.uiErrors, requests := 2,
                                polls := pr.polls, filesWritten := [assembly_temp_file],
                                filesDeleted := [] })

/-- `transcribe_all_in_parallel`: submit the three adapters to a
`ThreadPoolExecutor` and call `.result()` on each future in the fixed order
Deepgram, Whisper, AssemblyAI, returning the triple of strings in that
order.  A future whose callable raised re-raises the exception at
`.result()`, which propagates out of the orchestrator (modelled by
`some (.error e)`); an adapter that never returns blocks its `.result()`
forever, so the orchestrator never returns (modelled by `none`). -/
def transcribe_all_in_parallel (deepgramKey whisperKey assemblyKey : String)
    (deepgramEnv : ReqOutcome (Option String)) (whisperEnv : CallOutcome (Option String))
    (assemblyEnv : AssemblyEnv) :
    Option (Except String (String × String × String)) :=
  let deepgram_text := (transcribe_deepgram deepgramKey deepgramEnv).result
  let whisper_text := (transcribe_whisper whisperKey whisperEnv).result
  match transcribe_assemblyai assemblyKey assemblyEnv with
  | .error e => some (.error e)
  | .ok none => none
  | .ok (some arun) => some (.ok (deepgram_text, whisper_text, arun.result))

/-- The module-level configuration values `main` checks before doing
anything else (`AWS_DEFAULT_REGION` has a default and is not required). -/
structure Config where
  DEEPGRAM_API_KEY : String
  OPENAI_API_KEY : String
  ASSEMBLYAI_API_KEY : String
  DATABASE_URL : String
  AWS_ACCESS_KEY_ID : String
  AWS_SECRET_ACCESS_KEY : String
  AWS_S3_BUCKET_NAME : String
deriving DecidableEq, Repr

/-- Result of `main`'s credential checks: an `st.error` message followed by
`return` (before the recorder, the S3 upload and any adapter dispatch), or
fall-through to the rest of the page. -/
inductive GateResult where
  | refused (msg : String)
  | proceed
deriving DecidableEq, Repr

/-- The credential checks at the top of `main`: collect the names of the
backends whose API key is falsy; if any, error and return; then check
`DATABASE_URL`, then the AWS credentials and bucket name. -/
def main_credential_gate (cfg : Config) : GateResult :=
  let missing_keys :=
    (if cfg.DEEPGRAM_API_KEY = "" then ["Deepgram"] else []) ++
    (if cfg.OPENAI_API_KEY = "" then ["OpenAI"] else []) ++
    (if cfg.ASSEMBLYAI_API_KEY = "" then ["AssemblyAI"] else [])
  if missing_keys.isEmpty = false then
    .refused ("Missing keys for: " ++ String.intercalate ", " missing_keys)
  else if cfg.DATABASE_URL = "" then
    .refused "Missing DATABASE_URL."
  else if cfg.AWS_ACCESS_KEY_ID = "" ∨ cfg.AWS_SECRET_ACCESS_KEY = "" ∨
      cfg.AWS_S3_BUCKET_NAME = "" then
    .refused "Missing AWS S3 credentials or bucket name."
  else
    .proceed

/-- The save gate in `main`: the record is saved unless
`not (deepgram_text.strip() or whisper_text.strip() or assemblyai_text.strip())`,
i.e. saving is allowed iff at least one transcript strips to a non-empty
string. -/
def save_gate_allows (deepgram_text whisper_text assemblyai_text : String) : Bool :=
  !(pstrip deepgram_text == "") || !(pstrip whisper_text == "") ||
    !(pstrip assemblyai_text == "")

/-- C1, counterexample: the adapters return a plain string, not an outcome
with an error field.  A File-Staged (Whisper) call whose response body is
missing the expected transcript field produces an observable run identical
in every respect to a successful empty transcription, so a failed call is
NOT distinguishable from a successful empty transcription. -/
theorem whisper_missing_field_equals_empty_success :
    transcribe_whisper "k" (CallOutcome.ok none) =
      transcribe_whisper "k" (CallOutcome.ok (some "")) ∧
    (transcribe_whisper "k" (CallOutcome.ok none)).result = "" := by
  constructor
  · rfl
  · rfl

/-- C1, amended: on every failing interaction the adapters return a plain
string and never raise past the adapter boundary: the Direct-HTTP and
File-Staged adapters return `""` (indistinguishable from a successful
empty transcription); the Upload-Submit-Poll adapter returns `""` on its
caught failure paths, except that a 2xx upload response missing the
`upload_url` field yields the literal string
"AssemblyAI upload response invalid.".  No error field exists in any
returned value. -/
theorem failing_interactions_return_plain_strings :
    (∀ k msg, k ≠ "" → (transcribe_deepgram k (ReqOutcome.raise msg)).result = "") ∧
    (∀ k s b, k ≠ "" → 400 ≤ s → (transcribe_deepgram k (ReqOutcome.resp s b)).result = "") ∧
    (∀ k s, k ≠ "" → s < 400 → (transcribe_deepgram k (ReqOutcome.resp s none)).result = "") ∧
    (∀ k msg, k ≠ "" → (transcribe_whisper k (CallOutcome.raise msg)).result = "") ∧
    (∀ k, k ≠ "" → (transcribe_whisper k (CallOutcome.ok none)).result = "") ∧
    (∀ k msg sub polls, k ≠ "" →
      transcribe_assemblyai k ⟨none, ReqOutcome.raise msg, sub, polls⟩ =
        Except.ok (some { result := "", uiErrors := ["AssemblyAI upload failed: " ++ msg],
                          requests := 1, polls := 0, filesWritten := [assembly_temp_file],
                          filesDeleted := [] })) ∧
    (∀ k s b sub polls, k ≠ "" → 400 ≤ s →
      (transcribe_assemblyai k ⟨none, ReqOutcome.resp s b, sub, polls⟩).map
          (Option.map AdapterRun.result) = Except.ok (some "")) ∧
    (∀ k s sub polls, k ≠ "" → s < 400 →
      transcribe_assemblyai k ⟨none, ReqOutcome.resp s none, sub, polls⟩ =
        Except.ok (some { result := "AssemblyAI upload response invalid.", uiErrors := [],
                          requests := 1, polls := 0, filesWritten := [assembly_temp_file],
                          filesDeleted := [] })) ∧
    (∀ k s u msg polls, k ≠ "" → s < 400 →
      (transcribe_assemblyai k
          ⟨none, ReqOutcome.resp s (some u), ReqOutcome.raise msg, polls⟩).map
          (Option.map AdapterRun.result) = Except.ok (some "")) ∧
    (∀ k s u s2 b2 polls, k ≠ "" → s < 400 → 400 ≤ s2 →
      (transcribe_assemblyai k
          ⟨none, ReqOutcome.resp s (some u), ReqOutcome.resp s2 b2, polls⟩).map
          (Option.map AdapterRun.result) = Except.ok (some "")) ∧
    (∀ k s u s2 polls, k ≠ "" → s < 400 → s2 < 400 →
      (transcribe_assemblyai k
          ⟨none, ReqOutcome.resp s (some u), ReqOutcome.resp s2 none, polls⟩).map
          (Option.map AdapterRun.result) = Except.ok (some "")) ∧
    (∀ msg rest, (assembly_poll_loop (PollResp.raise msg :: rest)).map PollResult.result =
        some "") ∧
    (∀ hs tx er rest, hs < 400 →
      (assembly_poll_loop (PollResp.resp hs (some "error") tx er :: rest)).map
          PollResult.result = some "") := by
  refine ⟨?_, ?_, ?_, ?_, ?_, ?_, ?_, ?_, ?_, ?_, ?_, ?_, ?_⟩
  · intro k msg hk
    simp [transcribe_deepgram, hk]
  · intro k s b hk hs
    simp [transcribe_deepgram, hk, hs]
  · intro k s hk hs
    simp [transcribe_deepgram, hk, Nat.not_le.mpr hs]
  · intro k msg hk
    simp [transcribe_whisper, hk]
  · intro k hk
    simp [transcribe_whisper, hk]
    rfl
  · intro k msg sub polls hk
    simp [transcribe_assemblyai, hk]
  · intro k s b sub polls hk hs
    simp [transcribe_assemblyai, hk, hs]
    rfl
  · intro k s sub polls hk hs
    simp [transcribe_assemblyai, hk, Nat.not_le.mpr hs]
  · intro k s u msg polls hk hs
    simp [transcribe_assemblyai, hk, Nat.not_le.mpr hs]
    rfl
  · intro k s u s2 b2 polls hk hs hs2
    simp [transcribe_assemblyai, hk, Nat.not_le.mpr hs, hs2]
    rfl
  · intro k s u s2 polls hk hs hs2
    simp [transcribe_assemblyai, hk, Nat.not_le.mpr hs, Nat.not_le.mpr hs2]
    rfl
  · intro msg rest
    simp [assembly_poll_loop]
  · intro hs tx er rest hlt
    simp [assembly_poll_loop, Nat.not_le.mpr hlt]

/-- C1, witness for the amended theorem at concrete inputs. -/
theorem failing_interactions_return_plain_strings_witness :
    (transcribe_deepgram "k" (ReqOutcome.resp 500 (some "ignored"))).result = "" ∧
    (transcribe_whisper "k" (CallOutcome.raise "connection reset")).result = "" :=
  ⟨failing_interactions_return_plain_strings.2.1 "k" 500 (some "ignored") (by decide)
      (by decide),
   failing_interactions_return_plain_strings.2.2.2.1 "k" "connection reset" (by decide)⟩

/-- C2: the Upload-Submit-Poll adapter writes its temp file outside its
`try` blocks; when that write raises, the exception is re-raised by
`future_assemblyai.result()` and propagates out of
`transcribe_all_in_parallel`, which therefore yields no outcome triple —
even though the sibling Deepgram and Whisper calls completed successfully.
The claim (and the spec's isolation property) says the orchestrator should
still complete with the other two outcomes populated. -/
theorem assembly_write_fault_aborts_orchestrator :
    transcribe_all_in_parallel "dk" "wk" "ak" (ReqOutcome.resp 200 (some "hi"))
        (CallOutcome.ok (some "hi"))
        ⟨some "OSError: disk full", ReqOutcome.resp 200 (some "u"),
          ReqOutcome.resp 200 (some "id"),
          [PollResp.resp 200 (some "completed") (some "hi") none]⟩ =
      some (Except.error "OSError: disk full") ∧
    (transcribe_deepgram "dk" (ReqOutcome.resp 200 (some "hi"))).result = "hi" ∧
    (transcribe_whisper "wk" (CallOutcome.ok (some "hi"))).result = "hi" := by
  refine ⟨rfl, rfl, rfl⟩

/-- C5, counterexample: on the successful exit path the File-Staged
(Whisper) adapter writes `temp_whisper.wav` and deletes nothing, so the
temporary file persists after the call returns. -/
theorem whisper_temp_file_persists_after_success :
    (transcribe_whisper "k" (CallOutcome.ok (some "hi"))).filesWritten =
      [whisper_temp_file] ∧
    (transcribe_whisper "k" (CallOutcome.ok (some "hi"))).filesDeleted = [] := by
  refine ⟨rfl, rfl⟩

/-- C5, amended: the File-Staged adapter never deletes its temporary file
on ANY exit path — every invocation past the key check writes
`temp_whisper.wav` and its deleted-file set is empty, so the file persists
after success, backend error and transport error alike. -/
theorem whisper_temp_file_never_deleted (k : String) (env : CallOutcome (Option String))
    (hk : k ≠ "") :
    (transcribe_whisper k env).filesWritten = [whisper_temp_file] ∧
    (transcribe_whisper k env).filesDeleted = [] := by
  cases env <;> simp [transcribe_whisper, hk]

/-- C5, witness for the amended theorem at a concrete transport error. -/
theorem whisper_temp_file_never_deleted_witness :
    (transcribe_whisper "k" (CallOutcome.raise "timeout")).filesWritten =
      [whisper_temp_file] ∧
    (transcribe_whisper "k" (CallOutcome.raise "timeout")).filesDeleted = [] :=
  whisper_temp_file_never_deleted "k" (CallOutcome.raise "timeout") (by decide)

/-- C3: whenever the Upload-Submit-Poll adapter call returns (with a
success or a failure result — the Deepgram and Whisper calls always
return), `transcribe_all_in_parallel` joins on all three futures and
returns exactly the triple of the three adapters' results, in the fixed
identity order Deepgram, Whisper, AssemblyAI, independent of completion
order, with no outcome missing or duplicated. -/
theorem transcribe_all_three_outcomes_fixed_order (dk wk ak : String)
    (denv : ReqOutcome (Option String)) (wenv : CallOutcome (Option String))
    (aenv : AssemblyEnv) (arun : AdapterRun)
    (h : transcribe_assemblyai ak aenv = Except.ok (some arun)) :
    transcribe_all_in_parallel dk wk ak denv wenv aenv =
      some (Except.ok ((transcribe_deepgram dk denv).result,
        (transcribe_whisper wk wenv).result, arun.result)) := by
  simp [transcribe_all_in_parallel, h]

/-- C3, witness: a run in which Deepgram fails (HTTP 500), Whisper
succeeds and AssemblyAI reports a missing key still yields all three
outcomes in order. -/
theorem transcribe_all_three_outcomes_fixed_order_witness :
    transcribe_all_in_parallel "dk" "wk" "" (ReqOutcome.resp 500 none)
        (CallOutcome.ok (some " hi "))
        ⟨none, ReqOutcome.raise "x", ReqOutcome.raise "y", []⟩ =
      some (Except.ok ((transcribe_deepgram "dk" (ReqOutcome.resp 500 none)).result,
        (transcribe_whisper "wk" (CallOutcome.ok (some " hi "))).result,
        ({ result := "Missing AssemblyAI API key.", uiErrors := [], requests := 0,
           polls := 0, filesWritten := [], filesDeleted := [] } : AdapterRun).result)) :=
  transcribe_all_three_outcomes_fixed_order "dk" "wk" "" (ReqOutcome.resp 500 none)
    (CallOutcome.ok (some " hi "))
    ⟨none, ReqOutcome.raise "x", ReqOutcome.raise "y", []⟩
    { result := "Missing AssemblyAI API key.", uiErrors := [], requests := 0,
      polls := 0, filesWritten := [], filesDeleted := [] } rfl

/-- C4, counterexample: on a poll response with status `"error"` and error
message `"boom"`, the loop's return value — the string the adapter hands
back — is `""`, the same value a successful empty transcription produces;
the message `"boom"` only reaches the `st.error` UI channel, so the
adapter does not return an error outcome carrying the message. -/
theorem poll_error_status_returns_empty_string :
    assembly_poll_loop [PollResp.resp 200 (some "error") none (some "boom")] =
      some { result := "", uiErrors := ["AssemblyAI transcription error: boom"],
             polls := 1 } ∧
    assembly_poll_loop [PollResp.resp 200 (some "completed") (some "") none] =
      some { result := "", uiErrors := [], polls := 1 } := by
  refine ⟨rfl, rfl⟩

/-- C4, amended: the poll loop terminates exactly on status `"completed"`
or `"error"` and continues on any other status: on
`["queued","processing","completed"]` with text "hello world" it returns
"hello world" after exactly 3 poll calls; on `["error"]` with message
"boom" it makes no further poll calls and returns the empty string,
reporting the message only through the `st.error` UI channel; any
non-terminal status polls again. -/
theorem poll_loop_terminates_on_completed_or_error :
    (assembly_poll_loop
        [PollResp.resp 200 (some "queued") none none,
         PollResp.resp 200 (some "processing") none none,
         PollResp.resp 200 (some "completed") (some "hello world") none] =
      some { result := "hello world", uiErrors := [], polls := 3 }) ∧
    (assembly_poll_loop [PollResp.resp 200 (some "error") none (some "boom")] =
      some { result := "", uiErrors := ["AssemblyAI transcription error: boom"],
             polls := 1 }) ∧
    (∀ hs s tx er rest, hs < 400 → s ≠ "completed" → s ≠ "error" →
      assembly_poll_loop (PollResp.resp hs (some s) tx er :: rest) =
        (assembly_poll_loop rest).map fun pr =>
          { result := pr.result, uiErrors := pr.uiErrors, polls := pr.polls + 1 }) := by
  refine ⟨rfl, rfl, ?_⟩
  intro hs s tx er rest h4 hc he
  simp [assembly_poll_loop, Nat.not_le.mpr h4, hc, he]

/-- C4, witness for the amended theorem: a non-terminal status
`"queued"` continues into the rest of the stream. -/
theorem poll_loop_terminates_on_completed_or_error_witness :
    assembly_poll_loop
        [PollResp.resp 200 (some "queued") none none,
         PollResp.resp 200 (some "completed") (some "ok") none] =
      (assembly_poll_loop [PollResp.resp 200 (some "completed") (some "ok") none]).map
        fun pr => { result := pr.result, uiErrors := pr.uiErrors, polls := pr.polls + 1 } :=
  poll_loop_terminates_on_completed_or_error.2.2 200 "queued" none none
    [PollResp.resp 200 (some "completed") (some "ok") none]
    (by decide) (by decide) (by decide)

theorem assembly_poll_loop_none_iff (resps : List PollResp) :
    assembly_poll_loop resps = none ↔ ∀ r ∈ resps, isTerminalPoll r = false := by
  induction resps with
  | nil => simp [assembly_poll_loop]
  | cons r rest ih =>
    cases r with
    | raise msg => simp [assembly_poll_loop, isTerminalPoll]
    | resp hs st tx er =>
      by_cases h4 : 400 ≤ hs
      · simp [assembly_poll_loop, isTerminalPoll, h4]
      · cases st with
        | none => simp [assembly_poll_loop, isTerminalPoll, h4]
        | some s =>
          by_cases hc : s = "completed"
          · cases tx <;> simp [assembly_poll_loop, isTerminalPoll, h4, hc]
          · by_cases he : s = "error"
            · simp [assembly_poll_loop, isTerminalPoll, h4, hc, he]
            · simp [assembly_poll_loop, isTerminalPoll, h4, hc, he,
                Option.map_eq_none', ih]

/-- C6: the poll loop has no iteration bound and no cancellation — it
stops after a finite number of polls exactly when some response in the
stream is terminal (status `"completed"` or `"error"`, or an exception
during the poll attempt: transport failure, non-success HTTP status,
malformed body), a transport error during any poll being terminal after
exactly that poll (not retried); on a stream with no terminal response,
of any length, the loop is still running when the stream is exhausted,
so the adapter call never returns (`.ok none`). -/
theorem poll_loop_unbounded_no_terminal_never_returns :
    (∀ resps : List PollResp,
      assembly_poll_loop resps = none ↔ ∀ r ∈ resps, isTerminalPoll r = false) ∧
    (∀ msg rest, assembly_poll_loop (PollResp.raise msg :: rest) =
      some { result := "", uiErrors := ["AssemblyAI polling error: " ++ msg],
             polls := 1 }) ∧
    (∀ k us u ss tid polls, k ≠ "" → us < 400 → ss < 400 →
      (∀ r ∈ polls, isTerminalPoll r = false) →
      transcribe_assemblyai k
          ⟨none, ReqOutcome.resp us (some u), ReqOutcome.resp ss (some tid), polls⟩ =
        Except.ok none) := by
  refine ⟨assembly_poll_loop_none_iff, ?_, ?_⟩
  · intro msg rest
    simp [assembly_poll_loop]
  · intro k us u ss tid polls hk hus hss hnt
    have hloop : assembly_poll_loop polls = none :=
      (assembly_poll_loop_none_iff polls).mpr hnt
    simp [transcribe_assemblyai, hk, Nat.not_le.mpr hus, Nat.not_le.mpr hss, hloop]

/-- C6, witness: a two-element stream of non-terminal statuses leaves the
adapter still polling — the call does not return. -/
theorem poll_loop_unbounded_no_terminal_never_returns_witness :
    transcribe_assemblyai "k"
        ⟨none, ReqOutcome.resp 200 (some "u"), ReqOutcome.resp 200 (some "id"),
         [PollResp.resp 200 (some "queued") none none,
          PollResp.resp 200 (some "processing") none none]⟩ =
      Except.ok none :=
  poll_loop_unbounded_no_terminal_never_returns.2.2 "k" 200 "u" 200 "id"
    [PollResp.resp 200 (some "queued") none none,
     PollResp.resp 200 (some "processing") none none]
    (by decide) (by decide) (by decide) (by decide)

/-- C7, counterexample: two distinct invocations of the Upload-Submit-Poll
adapter (different calls, different upstream interactions) stage the very
same constant temporary file name `temp_assembly.wav` — the name contains
no per-call unique identifier or UUID; likewise two Whisper invocations
share `temp_whisper.wav`.  The only per-call UUID in the program is in the
S3 upload helper's object key, not in any adapter's temp file. -/
theorem temp_file_name_collision_across_invocations :
    transcribe_assemblyai "k" ⟨none, ReqOutcome.raise "call one", ReqOutcome.raise "x", []⟩ =
      Except.ok (some { result := "", uiErrors := ["AssemblyAI upload failed: call one"],
                        requests := 1, polls := 0, filesWritten := [assembly_temp_file],
                        filesDeleted := [] }) ∧
    transcribe_assemblyai "k" ⟨none, ReqOutcome.raise "call two", ReqOutcome.raise "x", []⟩ =
      Except.ok (some { result := "", uiErrors := ["AssemblyAI upload failed: call two"],
                        requests := 1, polls := 0, filesWritten := [assembly_temp_file],
                        filesDeleted := [] }) ∧
    assembly_temp_file = "temp_assembly.wav" ∧
    whisper_temp_file = "temp_whisper.wav" ∧
    (transcribe_whisper "k" (CallOutcome.ok (some "run a"))).filesWritten =
      (transcribe_whisper "k" (CallOutcome.ok (some "run b"))).filesWritten := by
  refine ⟨rfl, rfl, rfl, rfl, rfl⟩

/-- C7, amended: both file-staging adapters use a fixed, constant
temporary file name shared by every invocation (`temp_whisper.wav`,
`temp_assembly.wav`) — neither incorporates a per-call unique identifier,
so concurrent orchestrations collide on the shared files; the only
per-call unique identifier in the program is the one in the S3 upload
helper's object key, which does make distinct ids yield distinct keys. -/
theorem temp_file_names_fixed_only_s3_key_unique :
    (∀ k env, k ≠ "" → (transcribe_whisper k env).filesWritten = [whisper_temp_file]) ∧
    (∀ k up sub polls r, k ≠ "" →
      transcribe_assemblyai k ⟨none, up, sub, polls⟩ = Except.ok (some r) →
      r.filesWritten = [assembly_temp_file]) ∧
    (∀ u v, s3_object_key u = s3_object_key v → u = v) ∧
    assembly_temp_file = "temp_assembly.wav" ∧
    whisper_temp_file = "temp_whisper.wav" := by
  refine ⟨?_, ?_, ?_, rfl, rfl⟩
  · intro k env hk
    cases env <;> simp [transcribe_whisper, hk]
  · intro k up sub polls r hk h
    cases up with
    | raise msg =>
      simp [transcribe_assemblyai, hk] at h
      rw [← h]
    | resp uS uB =>
      by_cases hu : 400 ≤ uS
      · simp [transcribe_assemblyai, hk, hu] at h
        rw [← h]
      · cases uB with
        | none =>
          simp [transcribe_assemblyai, hk, hu] at h
          rw [← h]
        | some url =>
          cases sub with
          | raise msg =>
            simp [transcribe_assemblyai, hk, hu] at h
            rw [← h]
          | resp sS sB =>
            by_cases hs : 400 ≤ sS
            · simp [transcribe_assemblyai, hk, hu, hs] at h
              rw [← h]
            · cases sB with
              | none =>
                simp [transcribe_assemblyai, hk, hu, hs] at h
                rw [← h]
              | some tid =>
                cases hp : assembly_poll_loop polls with
                | none => simp [transcribe_assemblyai, hk, hu, hs, hp] at h
                | some pr =>
                  simp [transcribe_assemblyai, hk, hu, hs, hp] at h
                  rw [← h]
  · intro u v h
    have hd : ("audio_uploads/" ++ u ++ ".wav").data =
        ("audio_uploads/" ++ v ++ ".wav").data := congrArg String.data h
    simp only [String.data_append] at hd
    exact String.ext (List.append_cancel_left (List.append_cancel_right hd))

/-- C7, witness for the amended theorem at concrete inputs. -/
theorem temp_file_names_fixed_only_s3_key_unique_witness :
    (transcribe_whisper "k" (CallOutcome.ok (some "t"))).filesWritten =
      [whisper_temp_file] ∧ ("id-a" : String) = "id-a" :=
  ⟨temp_file_names_fixed_only_s3_key_unique.1 "k" (CallOutcome.ok (some "t")) (by decide),
   temp_file_names_fixed_only_s3_key_unique.2.2.1 "id-a" "id-a" rfl⟩

/-- C8: if any required configuration value (a backend API key, the
database URL, or the AWS blob-storage credentials/bucket) is falsy,
`main`'s credential gate refuses the page before the recorder, the S3
upload, and any adapter dispatch; independently, each adapter checks its
own key before its first request and, on a falsy key, returns immediately
having made zero HTTP requests and zero polls. -/
theorem missing_config_fails_fast_no_network :
    (∀ cfg : Config,
      cfg.DEEPGRAM_API_KEY = "" ∨ cfg.OPENAI_API_KEY = "" ∨
      cfg.ASSEMBLYAI_API_KEY = "" ∨ cfg.DATABASE_URL = "" ∨
      cfg.AWS_ACCESS_KEY_ID = "" ∨ cfg.AWS_SECRET_ACCESS_KEY = "" ∨
      cfg.AWS_S3_BUCKET_NAME = "" →
      main_credential_gate cfg ≠ GateResult.proceed) ∧
    (∀ env, (transcribe_deepgram "" env).requests = 0) ∧
    (∀ env, (transcribe_whisper "" env).requests = 0) ∧
    (∀ env, transcribe_assemblyai "" env =
      Except.ok (some { result := "Missing AssemblyAI API key.", uiErrors := [],
                        requests := 0, polls := 0, filesWritten := [],
                        filesDeleted := [] })) := by
  refine ⟨?_, ?_, ?_, ?_⟩
  · intro cfg h
    by_cases h1 : cfg.DEEPGRAM_API_KEY = "" <;>
    by_cases h2 : cfg.OPENAI_API_KEY = "" <;>
    by_cases h3 : cfg.ASSEMBLYAI_API_KEY = "" <;>
    by_cases h4 : cfg.DATABASE_URL = "" <;>
    by_cases h5 : cfg.AWS_ACCESS_KEY_ID = "" <;>
    by_cases h6 : cfg.AWS_SECRET_ACCESS_KEY = "" <;>
    by_cases h7 : cfg.AWS_S3_BUCKET_NAME = "" <;>
    simp [main_credential_gate, h1, h2, h3, h4, h5, h6, h7] at h ⊢
  · intro env
    simp [transcribe_deepgram]
  · intro env
    simp [transcribe_whisper]
  · intro env
    simp [transcribe_assemblyai]

/-- C8, witness: a configuration with an empty Deepgram key is refused. -/
theorem missing_config_fails_fast_no_network_witness :
    main_credential_gate ⟨"", "x", "x", "x", "x", "x", "x"⟩ ≠ GateResult.proceed :=
  missing_config_fails_fast_no_network.1 ⟨"", "x", "x", "x", "x", "x", "x"⟩
    (Or.inl rfl)

/-- C9: for every successful backend response whose transcript field is
present, each of the three adapters returns exactly that field value with
leading and trailing whitespace stripped, and a stripped string never
starts or ends with whitespace (the empty string being a valid non-error
result). -/
theorem success_returns_stripped_transcript :
    (∀ k s v, k ≠ "" → s < 400 →
      (transcribe_deepgram k (ReqOutcome.resp s (some v))).result = pstrip v) ∧
    (∀ k v, k ≠ "" → (transcribe_whisper k (CallOutcome.ok (some v))).result = pstrip v) ∧
    (∀ k us u ss tid v, k ≠ "" → us < 400 → ss < 400 →
      transcribe_assemblyai k
          ⟨none, ReqOutcome.resp us (some u), ReqOutcome.resp ss (some tid),
           [PollResp.resp 200 (some "completed") (some v) none]⟩ =
        Except.ok (some { result := pstrip v, uiErrors := [], requests := 2, polls := 1,
                          filesWritten := [assembly_temp_file], filesDeleted := [] })) ∧
    (∀ v, noEdgeWhitespace (pstrip v)) := by
  refine ⟨?_, ?_, ?_, pstrip_noEdgeWhitespace⟩
  · intro k s v hk hs
    simp [transcribe_deepgram, hk, Nat.not_le.mpr hs]
  · intro k v hk
    simp [transcribe_whisper, hk]
  · intro k us u ss tid v hk hus hss
    simp [transcribe_assemblyai, hk, Nat.not_le.mpr hus, Nat.not_le.mpr hss,
      assembly_poll_loop]

/-- C9, witness at a concrete padded transcript. -/
theorem success_returns_stripped_transcript_witness :
    pstrip "  patient has fever " = "patient has fever" ∧
    (transcribe_deepgram "k" (ReqOutcome.resp 200 (some "  patient has fever "))).result =
      pstrip "  patient has fever " :=
  ⟨by decide,
   success_returns_stripped_transcript.1 "k" 200 "  patient has fever " (by decide)
     (by decide)⟩

/-- C10: with a present-but-empty (falsy) API key each adapter returns its
literal missing-key message as the transcript return value — a plain
non-empty string of the same type as a real transcript; the triple of
such messages passes the all-transcripts-empty save gate of `main`, and
the value is indistinguishable from the result of a genuine transcription
whose transcript field happened to contain that sentence. -/
theorem empty_key_message_masquerades_as_transcript :
    (∀ env, (transcribe_deepgram "" env).result = "Missing Deepgram API key.") ∧
    (∀ env, (transcribe_whisper "" env).result = "Missing OpenAI API key.") ∧
    (∀ env, transcribe_assemblyai "" env =
      Except.ok (some { result := "Missing AssemblyAI API key.", uiErrors := [],
                        requests := 0, polls := 0, filesWritten := [],
                        filesDeleted := [] })) ∧
    ("Missing Deepgram API key." ≠ "") ∧
    save_gate_allows "Missing Deepgram API key." "Missing OpenAI API key."
      "Missing AssemblyAI API key." = true ∧
    (transcribe_deepgram "" (ReqOutcome.raise "never sent")).result =
      (transcribe_deepgram "k"
        (ReqOutcome.resp 200 (some "Missing Deepgram API key."))).result := by
  refine ⟨?_, ?_, ?_, by decide, by decide, by decide⟩
  · intro env
    simp [transcribe_deepgram]
  · intro env
    simp [transcribe_whisper]
  · intro env
    simp [transcribe_assemblyai]

end SpeechToText
